import Mathlib

/-!
Verification development for the hive-heat command-line client (src/main.rs).

The program is sequential glue around three HTTP calls (login, list products,
update node) plus token caching.  We embed it shallowly:

* serde_json values become the inductive `Json`, with f64 numbers modelled as
  rationals (the program only moves finite decimal values around; the special
  values inf/NaN and binary-rounding artifacts are outside the model).
* Rust panics (`unwrap`, `expect`, `panic!`) become `Except.error` results.
* Network and file-system effects are resolved by explicit environment
  records (`AuthEnv`, `TokenFileRead`) whose fields pre-determine the outcome
  of each external call; the run functions then record the observable events.
-/

/-- JSON value model mirroring serde_json::Value; numbers are rationals. -/
inductive Json where
  | null
  | bool (b : Bool)
  | num (q : ℚ)
  | str (s : String)
  | arr (elems : List Json)
  | obj (fields : List (String × Json))

/-- serde_json Value::as_object. -/
def Json.asObject : Json → Option (List (String × Json))
  | Json.obj fields => some fields
  | _ => none

/-- serde_json Value::as_array. -/
def Json.asArray : Json → Option (List Json)
  | Json.arr elems => some elems
  | _ => none

/-- serde_json Value::as_str. -/
def Json.asStr : Json → Option String
  | Json.str s => some s
  | _ => none

/-- serde_json Value::as_f64 (numbers modelled as rationals). -/
def Json.asF64 : Json → Option ℚ
  | Json.num q => some q
  | _ => none

/-- serde_json Value::as_bool. -/
def Json.asBool : Json → Option Bool
  | Json.bool b => some b
  | _ => none

/-- Lookup in a serde_json Map; the Map index operator panics when the key is
absent, so callers treat `none` as a panic. -/
def getField (fields : List (String × Json)) (key : String) : Option Json :=
  (fields.find? (fun kv => kv.1 == key)).map (fun kv => kv.2)

/-- Decimal digit character for a digit value (values ≥ 10 never occur at call
sites; they fall through to the final branch). -/
def digitChar (d : ℕ) : Char :=
  if d = 1 then '1' else if d = 2 then '2' else if d = 3 then '3'
  else if d = 4 then '4' else if d = 5 then '5' else if d = 6 then '6'
  else if d = 7 then '7' else if d = 8 then '8' else if d = 9 then '9'
  else '0'

/-- Decimal digits of a natural number, most significant first (fuel-indexed;
`natStr` supplies enough fuel). -/
def natStrAux : ℕ → ℕ → List Char
  | 0, _ => []
  | fuel + 1, n =>
    if n < 10 then [digitChar n]
    else natStrAux fuel (n / 10) ++ [digitChar (n % 10)]

/-- Decimal rendering of a natural number. -/
def natStr (n : ℕ) : List Char := natStrAux (n + 1) n

/-- Digits of the fractional part r/d (0 ≤ r < d), fuel-bounded. -/
def fracDigitsAux : ℕ → ℕ → ℕ → List Char
  | 0, _, _ => []
  | fuel + 1, r, d =>
    if r = 0 then []
    else digitChar (r * 10 / d) :: fracDigitsAux fuel (r * 10 % d) d

/-- Character list of the Rust `{}` Display rendering of an f64 (integral
values print without a decimal point, e.g. 21.0 prints as 21). -/
def fmtRatDisplayChars (q : ℚ) : List Char :=
  (if q.num < 0 then ['-'] else []) ++
  natStr (q.num.natAbs / q.den) ++
  (if q.num.natAbs % q.den = 0 then []
   else '.' :: fracDigitsAux 64 (q.num.natAbs % q.den) q.den)

/-- Rust `{}` Display rendering of an f64, on the rational model. -/
def fmtRatDisplay (q : ℚ) : String := String.mk (fmtRatDisplayChars q)

/-- Rust `{:.1}` fixed-point rendering of an f64: one decimal digit, rounding
to the nearest tenth (ties modelled half-up; exact ties cannot arise from the
decimal values the program handles). -/
def fmtFixed1 (q : ℚ) : String :=
  let n := q.num.natAbs
  let d := q.den
  let scaled := (20 * n + d) / (2 * d)
  String.mk ((if q.num < 0 then ['-'] else []) ++
    natStr (scaled / 10) ++ ['.', digitChar (scaled % 10)])

/-- Rust `{:>w}` right alignment: pad on the left with spaces to width `w`. -/
def padLeft (s : String) (w : ℕ) : String :=
  String.mk (List.replicate (w - s.length) ' ' ++ s.data)

/-- ASCII lowercase of one character (str::to_lowercase on the ASCII mode
literals the program displays). -/
def lowerChar (c : Char) : Char :=
  if 'A' ≤ c ∧ c ≤ 'Z' then Char.ofNat (c.toNat + 32) else c

/-- ASCII lowercase of a string. -/
def lowerStr (s : String) : String := String.mk (s.data.map lowerChar)

/-- Leading and remaining characters split at the first non-digit. -/
def takeDigits : List Char → List Char × List Char
  | [] => ([], [])
  | c :: cs =>
    if c.isDigit then
      let p := takeDigits cs
      (c :: p.1, p.2)
    else ([], c :: cs)

/-- Numeric value of a list of decimal digit characters. -/
def digitsToNat (ds : List Char) : ℕ :=
  ds.foldl (fun a c => 10 * a + (c.toNat - 48)) 0

/-- Strip an optional leading sign; `true` means negative. -/
def splitSign : List Char → Bool × List Char
  | '-' :: r => (true, r)
  | '+' :: r => (false, r)
  | cs => (false, cs)

/-- Exponent part of a float literal: sign, digits, nothing after.  The
mantissa arrives as a signed numerator `sn` over the denominator `10 ^ k`;
the exponent scales it by a further power of ten. -/
def expPart (sn : ℤ) (k : ℕ) (cs : List Char) : Option ℚ :=
  let p := splitSign cs
  let dp := takeDigits p.2
  if dp.1.isEmpty || !dp.2.isEmpty then none
  else
    let e := digitsToNat dp.1
    some (if p.1 then mkRat sn (10 ^ k * 10 ^ e) else mkRat (sn * 10 ^ e) (10 ^ k))

/-- Model of str::parse::<f64> on finite decimal literals: optional sign,
digits with optional fraction (digits required on at least one side of the
dot), optional exponent.  The mantissa is carried as numerator and
power-of-ten denominator exponent so the value is one `mkRat`.  The special
forms inf/infinity/NaN lie outside the rational model and no claim touches
them. -/
def parseF64 (s : String) : Option ℚ :=
  let p := splitSign s.data
  let ip := takeDigits p.2
  let mant : Option (ℕ × ℕ) × List Char :=
    match ip.2 with
    | '.' :: r =>
      let fp := takeDigits r
      if ip.1.isEmpty && fp.1.isEmpty then (none, fp.2)
      else (some (digitsToNat ip.1 * 10 ^ fp.1.length + digitsToNat fp.1, fp.1.length), fp.2)
    | _ => (if ip.1.isEmpty then none else some (digitsToNat ip.1, 0), ip.2)
  match mant.1 with
  | none => none
  | some nk =>
    let sn : ℤ := if p.1 then -(nk.1 : ℤ) else (nk.1 : ℤ)
    match mant.2 with
    | [] => some (mkRat sn (10 ^ nk.2))
    | e :: r =>
      if e = 'e' ∨ e = 'E' then expPart sn nk.2 r else none

/-- CliAction selected by main from the command line. -/
inductive CliAction where
  | showStatus
  | setMode (m : String)
  | setTarget (t : ℚ)
  | parseError
  deriving DecidableEq

/-- Command dispatch of main (lines 34-45): `userArgs` is the argument list
after the program name; `args.len() == 1` is `userArgs = []`, and `args[1]`
is the head of `userArgs`. -/
def dispatch (userArgs : List String) : CliAction :=
  match userArgs with
  | [] => CliAction.showStatus
  | a :: _ =>
    if a = "off" then CliAction.setMode "OFF"
    else if a = "manual" then CliAction.setMode "MANUAL"
    else if a = "schedule" then CliAction.setMode "SCHEDULE"
    else
      match parseF64 a with
      | some t => CliAction.setTarget t
      | none => CliAction.parseError

/-- Token Store read model: File::open on the token file either fails (file
missing, unreadable path, permissions) or opens, after which read_to_string
either yields the contents or fails (e.g. invalid UTF-8). -/
inductive TokenFileRead where
  | openFail
  | openOk (readResult : Option String)

/-- load_token (main.rs lines 61-75): an open failure yields None; a read
failure after a successful open hits `.unwrap()` and panics. -/
def load_token : TokenFileRead → Except String (Option String)
  | TokenFileRead.openFail => Except.ok none
  | TokenFileRead.openOk (some s) => Except.ok (some s)
  | TokenFileRead.openOk none => Except.error "read_to_string failed"

/-- find_heating_object scan (main.rs lines 125-132): each record must be an
object whose "type" entry is a string, otherwise an unwrap panics; the first
record typed "heating" is returned; an exhausted listing hits `panic!()`. -/
def find_heating_aux : List Json → Except String (List (String × Json))
  | [] => Except.error "panic"
  | p :: rest =>
    match p.asObject with
    | none => Except.error "as_object failed"
    | some o =>
      match (getField o "type").bind Json.asStr with
      | none => Except.error "type as_str failed"
      | some ty =>
        if ty = "heating" then Except.ok o else find_heating_aux rest

/-- find_heating_object (main.rs lines 124-133). -/
def find_heating_object (product_json : Json) : Except String (List (String × Json)) :=
  match product_json.asArray with
  | none => Except.error "as_array failed"
  | some products => find_heating_aux products

/-- Record "type" discriminator, when the record is an object with a string
"type" entry. -/
def recType? (p : Json) : Option String :=
  p.asObject.bind (fun o => (getField o "type").bind Json.asStr)

/-- Record has discriminator "heating". -/
def isHeating (p : Json) : Bool := recType? p == some "heating"

/-- output_status (main.rs lines 135-148): extracts state/props fields (an
unwrap panic is an error) and returns the three printed lines. -/
def output_status (heating_object : List (String × Json)) : Except String (List String) :=
  match (getField heating_object "state").bind Json.asObject with
  | none => Except.error "state as_object failed"
  | some state =>
    match (getField heating_object "props").bind Json.asObject with
    | none => Except.error "props as_object failed"
    | some props =>
      match (getField state "mode").bind Json.asStr with
      | none => Except.error "mode as_str failed"
      | some mode =>
        match (getField state "target").bind Json.asF64 with
        | none => Except.error "target as_f64 failed"
        | some target_temp =>
          match (getField props "temperature").bind Json.asF64 with
          | none => Except.error "temperature as_f64 failed"
          | some temp =>
            match (getField props "working").bind Json.asBool with
            | none => Except.error "working as_bool failed"
            | some working =>
              let working_indicator := if working && (mode != "OFF") then "🔥" else ""
              Except.ok
                ["Mode          " ++ padLeft (lowerStr mode) 8,
                 "Temperature   " ++ padLeft (fmtFixed1 temp) 7 ++ "°",
                 "Target        " ++ padLeft (fmtFixed1 target_temp) 7 ++ "° " ++ working_indicator]

/-- Request body built by set_target_temp (main.rs lines 150-159): when the
current mode is OFF the body also switches mode to MANUAL (as the unquoted
literal the format string produces); otherwise only the target is sent. -/
def set_target_temp_body (heating_object : List (String × Json)) (target_temp : ℚ) :
    Except String String :=
  match (getField heating_object "state").bind Json.asObject with
  | none => Except.error "state as_object failed"
  | some state =>
    match (getField state "mode").bind Json.asStr with
    | none => Except.error "mode as_str failed"
    | some mode =>
      Except.ok (if mode = "OFF"
        then "\x7b" ++ ("\"target\":" ++ fmtRatDisplay target_temp) ++ ", " ++ "\"mode\": MANUAL" ++ "\x7d"
        else "\x7b" ++ ("\"target\":" ++ fmtRatDisplay target_temp) ++ "\x7d")

/-- Request body built by set_mode (main.rs line 175): the mode literal is
interpolated bare, without quotes. -/
def set_mode_body (mode : String) : String :=
  "\x7b\"mode\":" ++ mode ++ "\x7d"

/-- Observable events of the auth/listing flow. -/
inductive AuthEvent where
  | login (result : Option String)
  | save (tok : String)
  | fetch (tok : String) (ok : Bool)
  deriving DecidableEq

/-- Outcome of the auth/listing flow. -/
inductive AuthOutcome where
  | ok (finalToken : String)
  | panic
  deriving DecidableEq

/-- Environment resolving the external calls of main lines 22-30: the token
the store holds (None when load_token found nothing), the token returned by
the i-th login request (None: the request or its parse fails, so the expect
panics), and whether the i-th listing fetch attempt succeeds. -/
structure AuthEnv where
  cachedToken : Option String
  loginResult : ℕ → Option String
  fetchOk : ℕ → Bool

/-- One call of login() (main.rs lines 77-82): the request is sent, and on
success the returned token is saved to the token store before being adopted. -/
def doLogin (env : AuthEnv) (i : ℕ) : List AuthEvent × Option String :=
  match env.loginResult i with
  | some t => ([AuthEvent.login (some t), AuthEvent.save t], some t)
  | none => ([AuthEvent.login none], none)

/-- Listing-fetch phase of main (lines 26-30): attempt the fetch with the
adopted token; on failure re-login once (the next login index) and retry
exactly once; a second failure is the final `.unwrap()` panic. -/
def fetchPhase (env : AuthEnv) (evs : List AuthEvent) (nextLogin : ℕ) (t : String) :
    List AuthEvent × AuthOutcome :=
  if env.fetchOk 0 then (evs ++ [AuthEvent.fetch t true], AuthOutcome.ok t)
  else
    match doLogin env nextLogin with
    | (levs, some t2) =>
      if env.fetchOk 1 then
        (evs ++ [AuthEvent.fetch t false] ++ levs ++ [AuthEvent.fetch t2 true], AuthOutcome.ok t2)
      else
        (evs ++ [AuthEvent.fetch t false] ++ levs ++ [AuthEvent.fetch t2 false], AuthOutcome.panic)
    | (levs, none) => (evs ++ [AuthEvent.fetch t false] ++ levs, AuthOutcome.panic)

/-- Auth/listing flow of main (lines 22-30): adopt the cached token when the
store has one, otherwise log in first; then run the fetch phase. -/
def runAuth (env : AuthEnv) : List AuthEvent × AuthOutcome :=
  match env.cachedToken with
  | some t => fetchPhase env [] 0 t
  | none =>
    match doLogin env 0 with
    | (levs, some t) => fetchPhase env levs 1 t
    | (levs, none) => (levs, AuthOutcome.panic)

/-- Token adopted for the first fetch attempt: the cached one, else the
result of the initial login. -/
def adoptedToken (env : AuthEnv) : Option String :=
  match env.cachedToken with
  | some t => some t
  | none => env.loginResult 0

/-- Index of the login performed by the retry branch. -/
def retryIdx (env : AuthEnv) : ℕ :=
  match env.cachedToken with
  | some _ => 0
  | none => 1

/-- Event classifiers and counters. -/
def isLoginEv : AuthEvent → Bool
  | AuthEvent.login _ => true
  | _ => false

def isFetchEv : AuthEvent → Bool
  | AuthEvent.fetch _ _ => true
  | _ => false

def numLogins (evs : List AuthEvent) : ℕ := (evs.filter isLoginEv).length

def numFetches (evs : List AuthEvent) : ℕ := (evs.filter isFetchEv).length

/-- Events strictly after the first fetch attempt. -/
def afterFirstFetch (evs : List AuthEvent) : List AuthEvent :=
  (evs.dropWhile (fun e => !isFetchEv e)).drop 1

/-- Events strictly before the first fetch attempt. -/
def beforeFirstFetch (evs : List AuthEvent) : List AuthEvent :=
  evs.takeWhile (fun e => !isFetchEv e)

/-- Substring machinery: `leadsWith pat l` holds when `pat` is an initial run
of `l`; `listContains pat l` when `pat` occurs contiguously somewhere in `l`. -/
def leadsWith : List Char → List Char → Bool
  | [], _ => true
  | _ :: _, [] => false
  | p :: ps, c :: cs => p == c && leadsWith ps cs

def listContains (pat : List Char) : List Char → Bool
  | [] => pat.isEmpty
  | c :: cs => leadsWith pat (c :: cs) || listContains pat cs

/-- String contains a contiguous substring. -/
def strContains (pat s : String) : Bool := listContains pat.data s.data

/-- Heating-device record with the fields the program reads. -/
def mkHeatingObj (id mode : String) (target temperature : ℚ) (working : Bool) :
    List (String × Json) :=
  [("id", Json.str id),
   ("type", Json.str "heating"),
   ("state", Json.obj [("mode", Json.str mode), ("target", Json.num target)]),
   ("props", Json.obj [("temperature", Json.num temperature), ("working", Json.bool working)])]

/-- Environment in which the token store is empty, both logins succeed, the
first listing fetch fails and the retry succeeds. -/
def envTwoLogins : AuthEnv :=
  { cachedToken := none
    loginResult := fun i => some (if i = 0 then "tok0" else "tok1")
    fetchOk := fun i => i == 1 }

/-- Environment in which a cached token is present, every fetch attempt
fails and the re-login succeeds. -/
def envRetryPanic : AuthEnv :=
  { cachedToken := some "cached"
    loginResult := fun _ => some "fresh"
    fetchOk := fun _ => false }

/-! Helper lemmas shared by several claims. -/

theorem str_data_append (s t : String) : (s ++ t).data = s.data ++ t.data := rfl

theorem str_append_nil (s : String) : s ++ "" = s := by
  cases s with
  | mk data =>
    show String.mk (data ++ []) = String.mk data
    rw [List.append_nil]

theorem leadsWith_append (pat rest : List Char) : leadsWith pat (pat ++ rest) = true := by
  induction pat with
  | nil => rfl
  | cons p ps ih => simp [leadsWith, ih]

theorem listContains_nil_pat (l : List Char) : listContains [] l = true := by
  cases l with
  | nil => rfl
  | cons c cs => simp [listContains, leadsWith]

theorem listContains_self_append (pat y : List Char) :
    listContains pat (pat ++ y) = true := by
  cases pat with
  | nil => simpa using listContains_nil_pat y
  | cons p ps =>
    show listContains (p :: ps) (p :: (ps ++ y)) = true
    have h := leadsWith_append (p :: ps) y
    simp [listContains]
    left
    simpa using h

theorem listContains_append_mid (x pat y : List Char) :
    listContains pat (x ++ pat ++ y) = true := by
  induction x with
  | nil => simpa using listContains_self_append pat y
  | cons c cs ih =>
    show listContains pat (c :: (cs ++ pat ++ y)) = true
    cases pat with
    | nil => simpa using listContains_nil_pat (c :: (cs ++ [] ++ y))
    | cons p ps =>
      simp only [listContains, Bool.or_eq_true]
      right
      simpa using ih

theorem mem_of_leadsWith {pat l : List Char} {c : Char}
    (h : leadsWith pat l = true) (hc : c ∈ pat) : c ∈ l := by
  induction pat generalizing l with
  | nil => cases hc
  | cons p ps ih =>
    cases l with
    | nil => simp [leadsWith] at h
    | cons a as =>
      simp only [leadsWith, Bool.and_eq_true, beq_iff_eq] at h
      rcases List.mem_cons.mp hc with rfl | hc2
      · exact h.1 ▸ List.mem_cons_self a as
      · exact List.mem_cons_of_mem a (ih h.2 hc2)

theorem mem_of_listContains {pat l : List Char} {c : Char}
    (h : listContains pat l = true) (hc : c ∈ pat) : c ∈ l := by
  induction l with
  | nil =>
    simp only [listContains, List.isEmpty_iff] at h
    subst h
    cases hc
  | cons a as ih =>
    simp only [listContains, Bool.or_eq_true] at h
    rcases h with h | h
    · exact mem_of_leadsWith h hc
    · exact List.mem_cons_of_mem a (ih h)

theorem listContains_eq_false_of_not_mem {pat l : List Char} {c : Char}
    (hc : c ∈ pat) (hl : c ∉ l) : listContains pat l = false := by
  cases h : listContains pat l with
  | false => rfl
  | true => exact absurd (mem_of_listContains h hc) hl

theorem digitChar_ne_m (d : ℕ) : digitChar d ≠ 'm' := by
  unfold digitChar
  repeat' split
  all_goals decide

theorem natStrAux_no_m (fuel n : ℕ) : 'm' ∉ natStrAux fuel n := by
  induction fuel generalizing n with
  | zero => simp [natStrAux]
  | succ fuel ih =>
    simp only [natStrAux]
    split
    · intro h
      exact digitChar_ne_m n (List.mem_singleton.mp h).symm
    · intro h
      rcases List.mem_append.mp h with h | h
      · exact ih (n / 10) h
      · exact digitChar_ne_m (n % 10) (List.mem_singleton.mp h).symm

theorem natStr_no_m (n : ℕ) : 'm' ∉ natStr n := natStrAux_no_m (n + 1) n

theorem fracDigitsAux_no_m (fuel r d : ℕ) : 'm' ∉ fracDigitsAux fuel r d := by
  induction fuel generalizing r with
  | zero => simp [fracDigitsAux]
  | succ fuel ih =>
    simp only [fracDigitsAux]
    split
    · simp
    · intro h
      rcases List.mem_cons.mp h with h | h
      · exact digitChar_ne_m (r * 10 / d) h.symm
      · exact ih (r * 10 % d) h

theorem fmtRatDisplayChars_no_m (q : ℚ) : 'm' ∉ fmtRatDisplayChars q := by
  unfold fmtRatDisplayChars
  intro h
  rcases List.mem_append.mp h with h | h
  · rcases List.mem_append.mp h with h | h
    · split at h
      · simp at h
      · cases h
    · exact natStr_no_m _ h
  · split at h
    · cases h
    · rcases List.mem_cons.mp h with h | h
      · cases h
      · exact fracDigitsAux_no_m _ _ _ h

theorem fmtRatDisplay_no_m (q : ℚ) : 'm' ∉ (fmtRatDisplay q).data :=
  fmtRatDisplayChars_no_m q

/-- Containment of the middle factor of a three-part concatenation. -/
theorem strContains_of_append (x pat y : String) :
    strContains pat (x ++ pat ++ y) = true := by
  simp only [strContains, str_data_append]
  exact listContains_append_mid x.data pat.data y.data

/-- Containment via an explicit decomposition of the data. -/
theorem strContains_mid (x pat y s : String)
    (h : s.data = x.data ++ pat.data ++ y.data) :
    strContains pat s = true := by
  simp only [strContains, h]
  exact listContains_append_mid x.data pat.data y.data

/-- C3 counterexample: a token file that opens but fails to read (for example
invalid UTF-8 contents) makes load_token panic instead of yielding None. -/
theorem load_token_read_failure_panics :
    load_token (TokenFileRead.openOk none) = Except.error "read_to_string failed"
    ∧ load_token (TokenFileRead.openOk none) ≠ Except.ok none := by
  refine ⟨rfl, ?_⟩
  intro h
  exact Except.noConfusion h

/-- C3 (amended): load_token returns absent for every failure of File::open
(a missing file included) and returns the contents of a readable file, but a
read failure after a successful open aborts the program. -/
theorem load_token_open_failure_absent :
    load_token TokenFileRead.openFail = Except.ok none
    ∧ (∀ s, load_token (TokenFileRead.openOk (some s)) = Except.ok (some s))
    ∧ ∃ e, load_token (TokenFileRead.openOk none) = Except.error e :=
  ⟨rfl, fun _ => rfl, ⟨"read_to_string failed", rfl⟩⟩

/-- C9: every mutation body that carries a mode interpolates the mode value
bare: the set_mode bodies are exactly the brace-delimited strings with the
unquoted literal, the quoted form never occurs in them, and the off-mode
set_target_temp body contains the unquoted `"mode": MANUAL` and not the
quoted variant. -/
theorem mode_literal_unquoted :
    set_mode_body "MANUAL" = "\x7b\"mode\":MANUAL\x7d"
    ∧ set_mode_body "OFF" = "\x7b\"mode\":OFF\x7d"
    ∧ set_mode_body "SCHEDULE" = "\x7b\"mode\":SCHEDULE\x7d"
    ∧ strContains "\"MANUAL\"" (set_mode_body "MANUAL") = false
    ∧ strContains "\"OFF\"" (set_mode_body "OFF") = false
    ∧ strContains "\"SCHEDULE\"" (set_mode_body "SCHEDULE") = false
    ∧ set_target_temp_body (mkHeatingObj "n" "OFF" (mkRat 21 1) (mkRat 39 2) true) (mkRat 39 2)
        = Except.ok "\x7b\"target\":19.5, \"mode\": MANUAL\x7d"
    ∧ strContains "\"mode\": MANUAL" "\x7b\"target\":19.5, \"mode\": MANUAL\x7d" = true
    ∧ strContains "\"mode\": \"MANUAL\"" "\x7b\"target\":19.5, \"mode\": MANUAL\x7d" = false := by
  refine ⟨rfl, rfl, rfl, by decide, by decide, by decide, rfl, by decide, by decide⟩

/-- C10: only the first argument after the program name is consulted; any
further arguments leave the selected action unchanged. -/
theorem extra_args_ignored (a : String) (rest : List String) :
    dispatch (a :: rest) = dispatch [a] := rfl

/-- C4: dispatch renders status on no argument, matches the three
case-sensitive mode keywords, parses any other argument as a float for
set-target, and treats a malformed argument as a fatal parse error (the
concrete conjuncts instantiate the spec examples, including case
sensitivity of the keywords). -/
theorem dispatch_cases :
    dispatch [] = CliAction.showStatus
    ∧ (∀ rest, dispatch ("off" :: rest) = CliAction.setMode "OFF")
    ∧ (∀ rest, dispatch ("manual" :: rest) = CliAction.setMode "MANUAL")
    ∧ (∀ rest, dispatch ("schedule" :: rest) = CliAction.setMode "SCHEDULE")
    ∧ (∀ a rest t, a ≠ "off" → a ≠ "manual" → a ≠ "schedule" →
        parseF64 a = some t → dispatch (a :: rest) = CliAction.setTarget t)
    ∧ (∀ a rest, a ≠ "off" → a ≠ "manual" → a ≠ "schedule" →
        parseF64 a = none → dispatch (a :: rest) = CliAction.parseError)
    ∧ dispatch ["19.5"] = CliAction.setTarget (mkRat 39 2)
    ∧ dispatch ["abc"] = CliAction.parseError
    ∧ dispatch ["OFF"] = CliAction.parseError := by
  refine ⟨rfl, fun _ => rfl, fun _ => rfl, fun _ => rfl, ?_, ?_, by decide, rfl, rfl⟩
  · intro a rest t h1 h2 h3 hp
    simp [dispatch, h1, h2, h3, hp]
  · intro a rest h1 h2 h3 hp
    simp [dispatch, h1, h2, h3, hp]

/-- C4 witness: the parse branch applied at the concrete argument 1.5. -/
theorem dispatch_cases_witness : dispatch ["1.5"] = CliAction.setTarget (mkRat 3 2) :=
  dispatch_cases.2.2.2.2.1 "1.5" [] (mkRat 3 2) (by decide) (by decide) (by decide) (by decide)

/-- C5: the set_target_temp body for a device whose state.mode is OFF carries
the new target and the switch of mode to MANUAL in the single request body;
for any other mode the body carries the target and no mode field at all. -/
theorem set_target_temp_mode_switch (o state : List (String × Json)) (mode : String) (t : ℚ)
    (hState : (getField o "state").bind Json.asObject = some state)
    (hMode : (getField state "mode").bind Json.asStr = some mode) :
    (mode = "OFF" →
      set_target_temp_body o t
        = Except.ok ("\x7b" ++ ("\"target\":" ++ fmtRatDisplay t) ++ ", " ++ "\"mode\": MANUAL" ++ "\x7d")
      ∧ strContains ("\"target\":" ++ fmtRatDisplay t)
          ("\x7b" ++ ("\"target\":" ++ fmtRatDisplay t) ++ ", " ++ "\"mode\": MANUAL" ++ "\x7d") = true
      ∧ strContains "\"mode\": MANUAL"
          ("\x7b" ++ ("\"target\":" ++ fmtRatDisplay t) ++ ", " ++ "\"mode\": MANUAL" ++ "\x7d") = true)
    ∧ (mode ≠ "OFF" →
      set_target_temp_body o t
        = Except.ok ("\x7b" ++ ("\"target\":" ++ fmtRatDisplay t) ++ "\x7d")
      ∧ strContains ("\"target\":" ++ fmtRatDisplay t)
          ("\x7b" ++ ("\"target\":" ++ fmtRatDisplay t) ++ "\x7d") = true
      ∧ strContains "\"mode\"" ("\x7b" ++ ("\"target\":" ++ fmtRatDisplay t) ++ "\x7d") = false) := by
  constructor
  · intro hOFF
    refine ⟨?_, ?_, ?_⟩
    · simp [set_target_temp_body, hState, hMode, hOFF]
    · apply strContains_mid "\x7b" ("\"target\":" ++ fmtRatDisplay t)
        (", " ++ "\"mode\": MANUAL" ++ "\x7d")
      simp [str_data_append, List.append_assoc]
    · exact strContains_of_append ("\x7b" ++ ("\"target\":" ++ fmtRatDisplay t) ++ ", ")
        "\"mode\": MANUAL" "\x7d"
  · intro hNot
    refine ⟨?_, ?_, ?_⟩
    · simp [set_target_temp_body, hState, hMode, hNot]
    · exact strContains_of_append "\x7b" ("\"target\":" ++ fmtRatDisplay t) "\x7d"
    · apply listContains_eq_false_of_not_mem (c := 'm')
      · decide
      · simp [str_data_append, fmtRatDisplay_no_m t]

/-- C5 witness: the OFF branch at a concrete device and target 19.5. -/
theorem set_target_temp_mode_switch_witness :
    set_target_temp_body (mkHeatingObj "n" "OFF" (mkRat 21 1) (mkRat 39 2) true) (mkRat 39 2)
      = Except.ok ("\x7b" ++ ("\"target\":" ++ fmtRatDisplay (mkRat 39 2)) ++ ", " ++ "\"mode\": MANUAL" ++ "\x7d")
    ∧ strContains ("\"target\":" ++ fmtRatDisplay (mkRat 39 2))
        ("\x7b" ++ ("\"target\":" ++ fmtRatDisplay (mkRat 39 2)) ++ ", " ++ "\"mode\": MANUAL" ++ "\x7d") = true
    ∧ strContains "\"mode\": MANUAL"
        ("\x7b" ++ ("\"target\":" ++ fmtRatDisplay (mkRat 39 2)) ++ ", " ++ "\"mode\": MANUAL" ++ "\x7d") = true :=
  (set_target_temp_mode_switch (mkHeatingObj "n" "OFF" (mkRat 21 1) (mkRat 39 2) true)
    [("mode", Json.str "OFF"), ("target", Json.num (mkRat 21 1))] "OFF" (mkRat 39 2) rfl rfl).1 rfl

/-- Scan specification for find_heating_aux, by induction on the listing. -/
theorem find_heating_aux_spec (ps : List Json)
    (hwf : ∀ p ∈ ps, (recType? p).isSome = true) :
    (∀ o, (ps.find? isHeating).bind Json.asObject = some o →
      find_heating_aux ps = Except.ok o)
    ∧ (ps.find? isHeating = none → find_heating_aux ps = Except.error "panic") := by
  induction ps with
  | nil =>
    constructor
    · intro o h
      simp [List.find?] at h
    · intro _
      rfl
  | cons p rest ih =>
    have hp : (recType? p).isSome = true := hwf p (List.mem_cons_self p rest)
    rcases Option.isSome_iff_exists.mp hp with ⟨ty, hty⟩
    rcases Option.bind_eq_some.mp hty with ⟨po, hpo, htys⟩
    have hrest := ih (fun q hq => hwf q (List.mem_cons_of_mem p hq))
    by_cases hheat : ty = "heating"
    · have hH : isHeating p = true := by
        simp [isHeating, hty, hheat]
      constructor
      · intro o h
        rw [List.find?_cons_of_pos _ hH] at h
        simp only [Option.bind_eq_some] at h
        rcases h with ⟨q, hq, hqo⟩
        cases hq
        rw [hpo] at hqo
        cases hqo
        simp [find_heating_aux, hpo, htys, hheat]
      · intro h
        rw [List.find?_cons_of_pos _ hH] at h
        cases h
    · have hH : isHeating p = false := by
        simp [isHeating, hty, hheat]
      constructor
      · intro o h
        rw [List.find?_cons_of_neg _ (by simp [hH])] at h
        have := hrest.1 o h
        simpa [find_heating_aux, hpo, htys, hheat] using this
      · intro h
        rw [List.find?_cons_of_neg _ (by simp [hH])] at h
        have := hrest.2 h
        simpa [find_heating_aux, hpo, htys, hheat] using this

/-- C6: on a listing whose records all carry a string "type" discriminator,
find_heating_object returns the object fields of the first record typed
"heating" (the first match of the scan order), and panics when the listing
contains no such record. -/
theorem find_heating_first (ps : List Json)
    (hwf : ∀ p ∈ ps, (recType? p).isSome = true) :
    (∀ o, (ps.find? isHeating).bind Json.asObject = some o →
      find_heating_object (Json.arr ps) = Except.ok o)
    ∧ (ps.find? isHeating = none →
      find_heating_object (Json.arr ps) = Except.error "panic") := by
  have h := find_heating_aux_spec ps hwf
  constructor
  · intro o ho
    show find_heating_aux ps = Except.ok o
    exact h.1 o ho
  · intro ho
    show find_heating_aux ps = Except.error "panic"
    exact h.2 ho

/-- C6 witness: a two-record listing whose second record is the heating one. -/
theorem find_heating_first_witness :
    find_heating_object (Json.arr
      [Json.obj [("type", Json.str "hub")],
       Json.obj [("type", Json.str "heating"), ("id", Json.str "node1")]])
      = Except.ok [("type", Json.str "heating"), ("id", Json.str "node1")] :=
  (find_heating_first
    [Json.obj [("type", Json.str "hub")],
     Json.obj [("type", Json.str "heating"), ("id", Json.str "node1")]]
    (by decide)).1
    [("type", Json.str "heating"), ("id", Json.str "node1")] rfl

/-- C7: the fire indicator is appended to the Target line exactly when
props.working is true and state.mode is not OFF; when the mode is OFF (or
working is false) the line ends without it, and the two renderings differ. -/
theorem fire_indicator (id mode : String) (target temp : ℚ) (working : Bool) :
    (working = true → mode ≠ "OFF" →
      output_status (mkHeatingObj id mode target temp working)
        = Except.ok
            ["Mode          " ++ padLeft (lowerStr mode) 8,
             "Temperature   " ++ padLeft (fmtFixed1 temp) 7 ++ "°",
             ("Target        " ++ padLeft (fmtFixed1 target) 7 ++ "° ") ++ "🔥"])
    ∧ ((working = false ∨ mode = "OFF") →
      output_status (mkHeatingObj id mode target temp working)
        = Except.ok
            ["Mode          " ++ padLeft (lowerStr mode) 8,
             "Temperature   " ++ padLeft (fmtFixed1 temp) 7 ++ "°",
             "Target        " ++ padLeft (fmtFixed1 target) 7 ++ "° "]
      ∧ ("Target        " ++ padLeft (fmtFixed1 target) 7 ++ "° ")
          ≠ ("Target        " ++ padLeft (fmtFixed1 target) 7 ++ "° ") ++ "🔥") := by
  have hred : output_status (mkHeatingObj id mode target temp working)
      = Except.ok
          ["Mode          " ++ padLeft (lowerStr mode) 8,
           "Temperature   " ++ padLeft (fmtFixed1 temp) 7 ++ "°",
           "Target        " ++ padLeft (fmtFixed1 target) 7 ++ "° "
             ++ (if working && (mode != "OFF") then "🔥" else "")] := rfl
  constructor
  · intro hw hm
    rw [hred, hw]
    have hb : (mode != "OFF") = true := bne_iff_ne.mpr hm
    rw [hb]
    rfl
  · intro h
    have hb : (working && (mode != "OFF")) = false := by
      rcases h with h | h
      · simp [h]
      · simp [h]
    refine ⟨?_, ?_⟩
    · rw [hred, hb]
      simp [str_append_nil]
    · intro hcontra
      have hlen := congrArg String.length hcontra
      simp only [String.length_append] at hlen
      have hfl : ("🔥" : String).length = 1 := rfl
      rw [hfl] at hlen
      omega

/-- C7 witness: a working device in SCHEDULE mode shows the fire indicator. -/
theorem fire_indicator_witness :
    output_status (mkHeatingObj "n" "SCHEDULE" (mkRat 20 1) (mkRat 19 1) true)
      = Except.ok
          ["Mode          " ++ padLeft (lowerStr "SCHEDULE") 8,
           "Temperature   " ++ padLeft (fmtFixed1 (mkRat 19 1)) 7 ++ "°",
           ("Target        " ++ padLeft (fmtFixed1 (mkRat 20 1)) 7 ++ "° ") ++ "🔥"] :=
  (fire_indicator "n" "SCHEDULE" (mkRat 20 1) (mkRat 19 1) true).1 rfl (by decide)

/-- C8 counterexample: at the spec example device the program prints lines
with different spacing (12, 6 and 11 inner spaces) than the three literals
the claim states (9, 4 and 9 inner spaces). -/
theorem status_format_claim_spacing :
    output_status (mkHeatingObj "node1" "MANUAL" (mkRat 21 1) (mkRat 39 2) true)
      = Except.ok ["Mode            manual", "Temperature      19.5°", "Target           21.0° 🔥"]
    ∧ "Mode            manual" ≠ "Mode         manual"
    ∧ "Temperature      19.5°" ≠ "Temperature    19.5°"
    ∧ "Target           21.0° 🔥" ≠ "Target         21.0° 🔥" :=
  ⟨rfl, by decide, by decide, by decide⟩

/-- C8 (amended): at the spec example device the three printed lines are
exactly these, mode lowercased right-aligned in width 8 after four spaces of
gap from the ten-character label column, temperatures with one decimal
right-aligned in width 7. -/
theorem status_format_exact :
    output_status (mkHeatingObj "node1" "MANUAL" (mkRat 21 1) (mkRat 39 2) true)
      = Except.ok ["Mode            manual", "Temperature      19.5°", "Target           21.0° 🔥"] := rfl

/-- C1: when the first listing fetch with the adopted token fails and the
re-login returns a token, exactly one login happens after that failed fetch,
the new token is persisted via the store, the fetch is retried exactly once
(two fetch attempts in the whole run) with the new token, and a failing
retry ends the run in the unrecoverable panic while a succeeding one ends it
with the new token. -/
theorem auth_retry_once (env : AuthEnv) (t t2 : String)
    (hAdopt : adoptedToken env = some t)
    (hFail : env.fetchOk 0 = false)
    (hRelogin : env.loginResult (retryIdx env) = some t2) :
    numLogins (afterFirstFetch (runAuth env).1) = 1
    ∧ AuthEvent.save t2 ∈ afterFirstFetch (runAuth env).1
    ∧ numFetches (runAuth env).1 = 2
    ∧ AuthEvent.fetch t2 (env.fetchOk 1) ∈ afterFirstFetch (runAuth env).1
    ∧ (env.fetchOk 1 = false → (runAuth env).2 = AuthOutcome.panic)
    ∧ (env.fetchOk 1 = true → (runAuth env).2 = AuthOutcome.ok t2) := by
  cases hc : env.cachedToken with
  | some tc =>
    simp only [retryIdx, hc] at hRelogin
    cases hf1 : env.fetchOk 1 <;>
      simp [runAuth, hc, fetchPhase, hFail, doLogin, hRelogin, hf1,
        numLogins, numFetches, afterFirstFetch, isLoginEv, isFetchEv]
  | none =>
    simp only [adoptedToken, hc] at hAdopt
    simp only [retryIdx, hc] at hRelogin
    cases hf1 : env.fetchOk 1 <;>
      simp [runAuth, hc, fetchPhase, hFail, doLogin, hAdopt, hRelogin, hf1,
        numLogins, numFetches, afterFirstFetch, isLoginEv, isFetchEv]

/-- C1 witness: cached token present, both fetches fail, re-login succeeds. -/
theorem auth_retry_once_witness :
    numLogins (afterFirstFetch (runAuth envRetryPanic).1) = 1
    ∧ AuthEvent.save "fresh" ∈ afterFirstFetch (runAuth envRetryPanic).1
    ∧ numFetches (runAuth envRetryPanic).1 = 2
    ∧ AuthEvent.fetch "fresh" (envRetryPanic.fetchOk 1) ∈ afterFirstFetch (runAuth envRetryPanic).1
    ∧ (envRetryPanic.fetchOk 1 = false → (runAuth envRetryPanic).2 = AuthOutcome.panic)
    ∧ (envRetryPanic.fetchOk 1 = true → (runAuth envRetryPanic).2 = AuthOutcome.ok "fresh") :=
  auth_retry_once envRetryPanic "cached" "fresh" rfl rfl rfl

/-- C2 counterexample: with an empty token store and a first fetch that fails
before the retry succeeds, the run performs two login calls and still ends
with a successful listing fetch, so a run may perform more than one login
before the listing fetch succeeds. -/
theorem two_logins_before_success :
    envTwoLogins.cachedToken = none
    ∧ (runAuth envTwoLogins).2 = AuthOutcome.ok "tok1"
    ∧ numLogins (runAuth envTwoLogins).1 = 2 := by
  refine ⟨rfl, by decide, by decide⟩

/-- C2 (amended): every run performs at most two logins.  A run with a
cached token performs no login before the first listing fetch, at most one
login overall, and exactly one login when the first fetch fails (the cached
token is rejected).  A run without a cached token whose initial login
returns performs exactly one login before the first listing fetch; when the
first fetch succeeds that is the only login of the run, and when the first
fetch fails exactly one further login occurs after the failed fetch and
before the single retry, for two logins in total. -/
theorem auth_login_count (env : AuthEnv) :
    numLogins (runAuth env).1 ≤ 2
    ∧ (∀ t, env.cachedToken = some t →
        numLogins (beforeFirstFetch (runAuth env).1) = 0
        ∧ numLogins (runAuth env).1 ≤ 1
        ∧ (env.fetchOk 0 = false → numLogins (runAuth env).1 = 1))
    ∧ (env.cachedToken = none → env.fetchOk 0 = true →
        numLogins (runAuth env).1 = 1)
    ∧ (env.cachedToken = none → (env.loginResult 0).isSome = true →
        numLogins (beforeFirstFetch (runAuth env).1) = 1
        ∧ (env.fetchOk 0 = false →
            numLogins (beforeFirstFetch (afterFirstFetch (runAuth env).1)) = 1
            ∧ numLogins (runAuth env).1 = 2)) := by
  cases hc : env.cachedToken with
  | some tc =>
    have key : numLogins (beforeFirstFetch (runAuth env).1) = 0
        ∧ numLogins (runAuth env).1 ≤ 1
        ∧ (env.fetchOk 0 = false → numLogins (runAuth env).1 = 1) := by
      cases hf0 : env.fetchOk 0 <;>
        cases hl : env.loginResult 0 <;>
          cases hf1 : env.fetchOk 1 <;>
            simp [runAuth, hc, fetchPhase, hf0, doLogin, hl, hf1, numLogins, isLoginEv,
              beforeFirstFetch, isFetchEv]
    exact ⟨Nat.le_trans key.2.1 (by omega), fun t _ => key,
      fun h => Option.noConfusion h, fun h => Option.noConfusion h⟩
  | none =>
    cases hl0 : env.loginResult 0 with
    | none =>
      refine ⟨?_, fun t ht => Option.noConfusion ht, fun _ hf0 => ?_, fun _ hs => ?_⟩
      · simp [runAuth, hc, doLogin, hl0, numLogins, isLoginEv]
      · simp [runAuth, hc, doLogin, hl0, fetchPhase, hf0, numLogins, isLoginEv]
      · simp at hs
    | some t0 =>
      refine ⟨?_, fun t ht => Option.noConfusion ht, fun _ hf0 => ?_,
        fun _ _ => ⟨?_, fun hf0 => ⟨?_, ?_⟩⟩⟩
      · cases hf0 : env.fetchOk 0 <;>
          cases hl1 : env.loginResult 1 <;>
            cases hf1 : env.fetchOk 1 <;>
              simp [runAuth, hc, doLogin, hl0, hl1, fetchPhase, hf0, hf1, numLogins, isLoginEv]
      · simp [runAuth, hc, doLogin, hl0, fetchPhase, hf0, numLogins, isLoginEv]
      · cases hf0 : env.fetchOk 0 <;>
          cases hl1 : env.loginResult 1 <;>
            cases hf1 : env.fetchOk 1 <;>
              simp [runAuth, hc, doLogin, hl0, hl1, fetchPhase, hf0, hf1, numLogins, isLoginEv,
                beforeFirstFetch, isFetchEv]
      · cases hl1 : env.loginResult 1 <;>
          cases hf1 : env.fetchOk 1 <;>
            simp [runAuth, hc, doLogin, hl0, hl1, fetchPhase, hf0, hf1, numLogins, isLoginEv,
              beforeFirstFetch, afterFirstFetch, isFetchEv]
      · cases hl1 : env.loginResult 1 <;>
          cases hf1 : env.fetchOk 1 <;>
            simp [runAuth, hc, doLogin, hl0, hl1, fetchPhase, hf0, hf1, numLogins, isLoginEv]

/-- C2 amended witness: the present-and-rejected environment performs exactly
one login, and the empty-store environment with a failing first fetch
performs one login between the failed fetch and the retry and two in total. -/
theorem auth_login_count_witness :
    numLogins (runAuth envRetryPanic).1 = 1
    ∧ numLogins (beforeFirstFetch (afterFirstFetch (runAuth envTwoLogins).1)) = 1
    ∧ numLogins (runAuth envTwoLogins).1 = 2 :=
  ⟨((auth_login_count envRetryPanic).2.1 "cached" rfl).2.2 rfl,
   (((auth_login_count envTwoLogins).2.2.2 rfl rfl).2 rfl).1,
   (((auth_login_count envTwoLogins).2.2.2 rfl rfl).2 rfl).2⟩
